import Mathlib

/-!
Shallow embedding of the garden client/server protocol bridge
(`src/server/request_handling.go`, `src/client/connection/connection.go`,
`src/client/connection/stream_handler.go`).

Machine integers (`uint32`/`uint64`) are modelled as `Nat`, with explicit
`% 2 ^ 32` / `% 2 ^ 64` where the code performs a width conversion.
Fallible Go calls (`(T, error)` returns) are modelled with `Except String`.
External collaborators (the `Backend`/`Container` capability set and the
bomberman eviction scheduler) are modelled as oracles: a `Container` record
carries the result each backend method would return, and every handler
additionally produces the trace of backend/scheduler calls it performs, so
that claims about which methods are invoked, and in which order, are
statements about that trace.
-/

namespace Garden

/-- `warden.ProcessStreamSource`: the three stdio sources. -/
inductive StreamSource where
  | stdout
  | stderr
  | stdin
deriving DecidableEq

/-- `warden.ProcessStream`: one event yielded by the backend's process-event
channel.  `Data` (a byte slice in Go) is modelled as a `String`, matching the
`string(payload.Data)` conversion in the server. -/
structure ProcessStreamPayload where
  source : StreamSource
  data : String
  exitStatus : Option Nat
deriving DecidableEq

/-- One `protocol.ProcessPayload` frame as written by the server: the initial
frame carries only the process ID, a data frame carries ID/source/data, and
the terminal frame carries ID/exit status. -/
inductive Frame where
  | procID (processID : Nat)
  | data (processID : Nat) (source : StreamSource) (data : String)
  | exit (processID : Nat) (status : Nat)
deriving DecidableEq

/-- `warden.BandwidthLimits`. -/
structure BandwidthLimits where
  rateInBytesPerSecond : Nat
  burstRateInBytesPerSecond : Nat
deriving DecidableEq

/-- `warden.MemoryLimits`. -/
structure MemoryLimits where
  limitInBytes : Nat
deriving DecidableEq

/-- `warden.CPULimits`. -/
structure CPULimits where
  limitInShares : Nat
deriving DecidableEq

/-- `warden.DiskLimits`. -/
structure DiskLimits where
  blockSoft : Nat
  blockHard : Nat
  inodeSoft : Nat
  inodeHard : Nat
  byteSoft : Nat
  byteHard : Nat
deriving DecidableEq

/-- `warden.ContainerInfo`'s `MemoryStat` block, as read by `handleInfo`. -/
structure ContainerMemoryStat where
  cache : Nat
  rss : Nat
  mappedFile : Nat
  pgpgin : Nat
  pgpgout : Nat
  swap : Nat
  pgfault : Nat
  pgmajfault : Nat
  inactiveAnon : Nat
  activeAnon : Nat
  inactiveFile : Nat
  activeFile : Nat
  unevictable : Nat
  hierarchicalMemoryLimit : Nat
  hierarchicalMemswLimit : Nat
  totalCache : Nat
  totalRss : Nat
  totalMappedFile : Nat
  totalPgpgin : Nat
  totalPgpgout : Nat
  totalSwap : Nat
  totalPgfault : Nat
  totalPgmajfault : Nat
  totalInactiveAnon : Nat
  totalActiveAnon : Nat
  totalInactiveFile : Nat
  totalActiveFile : Nat
  totalUnevictable : Nat
deriving DecidableEq

/-- `warden.ContainerInfo`'s `CPUStat` block. -/
structure ContainerCPUStat where
  usage : Nat
  user : Nat
  system : Nat
deriving DecidableEq

/-- `warden.ContainerInfo`'s `DiskStat` block. -/
structure ContainerDiskStat where
  bytesUsed : Nat
  inodesUsed : Nat
deriving DecidableEq

/-- `warden.ContainerInfo`'s `BandwidthStat` block. -/
structure ContainerBandwidthStat where
  inRate : Nat
  inBurst : Nat
  outRate : Nat
  outBurst : Nat
deriving DecidableEq

/-- `warden.ContainerInfo`, with exactly the fields `handleInfo` reads from
the backend-produced value.  `ProcessIDs` is `[]uint32` in Go. -/
structure ContainerInfo where
  state : String
  events : List String
  hostIP : String
  containerIP : String
  containerPath : String
  processIDs : List Nat
  memoryStat : ContainerMemoryStat
  cpuStat : ContainerCPUStat
  diskStat : ContainerDiskStat
  bandwidthStat : ContainerBandwidthStat
deriving DecidableEq

/-- `protocol.StopRequest` (optional proto fields; `GetX` defaults apply). -/
structure StopRequest where
  handle : String
  kill : Option Bool
  background : Option Bool
deriving DecidableEq

/-- `protocol.CopyInRequest`. -/
structure CopyInRequest where
  handle : String
  srcPath : String
  dstPath : String
deriving DecidableEq

/-- `protocol.CopyOutRequest`. -/
structure CopyOutRequest where
  handle : String
  srcPath : String
  dstPath : String
  owner : String
deriving DecidableEq

/-- `protocol.LimitBandwidthRequest`: `Rate` and `Burst` are optional
`uint64` fields. -/
structure LimitBandwidthRequest where
  handle : String
  rate : Option Nat
  burst : Option Nat
deriving DecidableEq

/-- `protocol.LimitMemoryRequest`: `LimitInBytes` is an optional `uint64`. -/
structure LimitMemoryRequest where
  handle : String
  limitInBytes : Option Nat
deriving DecidableEq

/-- `protocol.LimitCpuRequest`: `LimitInShares` is an optional `uint64`. -/
structure LimitCpuRequest where
  handle : String
  limitInShares : Option Nat
deriving DecidableEq

/-- `protocol.LimitDiskRequest`: six canonical soft/hard fields plus six
legacy aliases (`Block`, `BlockLimit`, `Inode`, `InodeLimit`, `Byte`,
`ByteLimit`), all optional `uint64`s. -/
structure LimitDiskRequest where
  handle : String
  blockSoft : Option Nat
  blockHard : Option Nat
  inodeSoft : Option Nat
  inodeHard : Option Nat
  byteSoft : Option Nat
  byteHard : Option Nat
  block : Option Nat
  blockLimit : Option Nat
  inode : Option Nat
  inodeLimit : Option Nat
  byte : Option Nat
  byteLimit : Option Nat
deriving DecidableEq

/-- `protocol.NetInRequest`. -/
structure NetInRequest where
  handle : String
  hostPort : Option Nat
  containerPort : Option Nat
deriving DecidableEq

/-- `protocol.NetOutRequest`. -/
structure NetOutRequest where
  handle : String
  network : Option String
  port : Option Nat
deriving DecidableEq

/-- `protocol.InfoRequest`. -/
structure InfoRequest where
  handle : String
deriving DecidableEq

/-- `protocol.RunRequest`, restricted to the fields `handleRun` reads. -/
structure RunRequest where
  handle : String
  script : Option String
  privileged : Option Bool
deriving DecidableEq

/-- `protocol.AttachRequest`. -/
structure AttachRequest where
  handle : String
  processID : Nat
deriving DecidableEq

/-- `protocol.StopResponse`. -/
structure StopResponse where
deriving DecidableEq

/-- `protocol.CopyInResponse`. -/
structure CopyInResponse where
deriving DecidableEq

/-- `protocol.CopyOutResponse`. -/
structure CopyOutResponse where
deriving DecidableEq

/-- `protocol.LimitBandwidthResponse` (the server always sets both fields). -/
structure LimitBandwidthResponse where
  rate : Nat
  burst : Nat
deriving DecidableEq

/-- `protocol.LimitMemoryResponse`. -/
structure LimitMemoryResponse where
  limitInBytes : Nat
deriving DecidableEq

/-- `protocol.LimitCpuResponse`. -/
structure LimitCpuResponse where
  limitInShares : Nat
deriving DecidableEq

/-- `protocol.LimitDiskResponse`. -/
structure LimitDiskResponse where
  blockSoft : Nat
  blockHard : Nat
  inodeSoft : Nat
  inodeHard : Nat
  byteSoft : Nat
  byteHard : Nat
deriving DecidableEq

/-- `protocol.NetInResponse`. -/
structure NetInResponse where
  hostPort : Nat
  containerPort : Nat
deriving DecidableEq

/-- `protocol.NetOutResponse`. -/
structure NetOutResponse where
deriving DecidableEq

/-- One backend/scheduler call made by a server handler, recorded in the
handler's trace: `backend.Lookup`, `bomberman.Pause`/`Unpause`, and the
`Container` methods each handler invokes. `spawnStop` records the `go
container.Stop(kill)` statement of the background branch of `handleStop`:
the stop is fired on a separate task, so only the act of firing it is part
of the handler's own call sequence. -/
inductive ServerEvent where
  | lookup (handle : String)
  | pause (handle : String)
  | unpause (handle : String)
  | stop (kill : Bool)
  | spawnStop (kill : Bool)
  | copyIn (srcPath dstPath : String)
  | copyOut (srcPath dstPath owner : String)
  | limitBandwidth (limits : BandwidthLimits)
  | currentBandwidthLimits
  | limitMemory (limits : MemoryLimits)
  | currentMemoryLimits
  | limitCpu (limits : CPULimits)
  | currentCpuLimits
  | limitDisk (limits : DiskLimits)
  | currentDiskLimits
  | netIn (hostPort containerPort : Nat)
  | netOut (network : String) (port : Nat)
  | info
  | run (script : String) (privileged : Bool)
  | attach (processID : Nat)
deriving DecidableEq

/-- Oracle model of the external `warden.Container` capability: the record
carries the result each backend method would return when the handler calls
it (each handler calls each method at most once). -/
structure Container where
  handle : String
  stopResult : Except String Unit
  copyInResult : Except String Unit
  copyOutResult : Except String Unit
  limitBandwidthResult : Except String Unit
  currentBandwidthLimitsResult : Except String BandwidthLimits
  limitMemoryResult : Except String Unit
  currentMemoryLimitsResult : Except String MemoryLimits
  limitCpuResult : Except String Unit
  currentCpuLimitsResult : Except String CPULimits
  limitDiskResult : Except String Unit
  currentDiskLimitsResult : Except String DiskLimits
  netInResult : Except String (Nat × Nat)
  netOutResult : Except String Unit
  infoResult : Except String ContainerInfo
  properties : List (String × String)
  runResult : Except String (Nat × List ProcessStreamPayload)
  attachResult : Except String (List ProcessStreamPayload)

/-- `handleStop` (`src/server/request_handling.go:136-159`): look the
container up, pause its eviction timer (unpause deferred), then either fire
`container.Stop(kill)` on a background task (discarding its error) or call
it synchronously and propagate its error. -/
def handleStop (lookupResult : Except String Container) (r : StopRequest) :
    List ServerEvent × Except String StopResponse :=
  match lookupResult with
  | .error e => ([.lookup r.handle], .error e)
  | .ok c =>
    let kill := r.kill.getD false
    if r.background.getD false then
      ([.lookup r.handle, .pause c.handle, .spawnStop kill, .unpause c.handle], .ok ⟨⟩)
    else
      match c.stopResult with
      | .error e =>
        ([.lookup r.handle, .pause c.handle, .stop kill, .unpause c.handle], .error e)
      | .ok _ =>
        ([.lookup r.handle, .pause c.handle, .stop kill, .unpause c.handle], .ok ⟨⟩)

/-- `handleCopyIn` (`src/server/request_handling.go:161-180`). -/
def handleCopyIn (lookupResult : Except String Container) (r : CopyInRequest) :
    List ServerEvent × Except String CopyInResponse :=
  match lookupResult with
  | .error e => ([.lookup r.handle], .error e)
  | .ok c =>
    match c.copyInResult with
    | .error e =>
      ([.lookup r.handle, .pause c.handle, .copyIn r.srcPath r.dstPath,
        .unpause c.handle], .error e)
    | .ok _ =>
      ([.lookup r.handle, .pause c.handle, .copyIn r.srcPath r.dstPath,
        .unpause c.handle], .ok ⟨⟩)

/-- `handleCopyOut` (`src/server/request_handling.go:114-134`). -/
def handleCopyOut (lookupResult : Except String Container) (r : CopyOutRequest) :
    List ServerEvent × Except String CopyOutResponse :=
  match lookupResult with
  | .error e => ([.lookup r.handle], .error e)
  | .ok c =>
    match c.copyOutResult with
    | .error e =>
      ([.lookup r.handle, .pause c.handle, .copyOut r.srcPath r.dstPath r.owner,
        .unpause c.handle], .error e)
    | .ok _ =>
      ([.lookup r.handle, .pause c.handle, .copyOut r.srcPath r.dstPath r.owner,
        .unpause c.handle], .ok ⟨⟩)

/-- `handleLimitBandwidth` (`src/server/request_handling.go:182-212`):
unconditionally calls `container.LimitBandwidth` with the request's rate and
burst (proto getters default absent fields to `0`), then reads the current
limits back. -/
def handleLimitBandwidth (lookupResult : Except String Container)
    (r : LimitBandwidthRequest) :
    List ServerEvent × Except String LimitBandwidthResponse :=
  match lookupResult with
  | .error e => ([.lookup r.handle], .error e)
  | .ok c =>
    let l : BandwidthLimits := ⟨r.rate.getD 0, r.burst.getD 0⟩
    match c.limitBandwidthResult with
    | .error e =>
      ([.lookup r.handle, .pause c.handle, .limitBandwidth l, .unpause c.handle],
       .error e)
    | .ok _ =>
      match c.currentBandwidthLimitsResult with
      | .error e =>
        ([.lookup r.handle, .pause c.handle, .limitBandwidth l,
          .currentBandwidthLimits, .unpause c.handle], .error e)
      | .ok cur =>
        ([.lookup r.handle, .pause c.handle, .limitBandwidth l,
          .currentBandwidthLimits, .unpause c.handle],
         .ok ⟨cur.rateInBytesPerSecond, cur.burstRateInBytesPerSecond⟩)

/-- `handleLimitMemory` (`src/server/request_handling.go:214-244`): calls
`container.LimitMemory` only when `LimitInBytes` is present, then reads the
current limits back. -/
def handleLimitMemory (lookupResult : Except String Container)
    (r : LimitMemoryRequest) :
    List ServerEvent × Except String LimitMemoryResponse :=
  match lookupResult with
  | .error e => ([.lookup r.handle], .error e)
  | .ok c =>
    match r.limitInBytes with
    | some v =>
      match c.limitMemoryResult with
      | .error e =>
        ([.lookup r.handle, .pause c.handle, .limitMemory ⟨v⟩, .unpause c.handle],
         .error e)
      | .ok _ =>
        match c.currentMemoryLimitsResult with
        | .error e =>
          ([.lookup r.handle, .pause c.handle, .limitMemory ⟨v⟩,
            .currentMemoryLimits, .unpause c.handle], .error e)
        | .ok cur =>
          ([.lookup r.handle, .pause c.handle, .limitMemory ⟨v⟩,
            .currentMemoryLimits, .unpause c.handle], .ok ⟨cur.limitInBytes⟩)
    | none =>
      match c.currentMemoryLimitsResult with
      | .error e =>
        ([.lookup r.handle, .pause c.handle, .currentMemoryLimits,
          .unpause c.handle], .error e)
      | .ok cur =>
        ([.lookup r.handle, .pause c.handle, .currentMemoryLimits,
          .unpause c.handle], .ok ⟨cur.limitInBytes⟩)

/-- `handleLimitCpu` (`src/server/request_handling.go:330-359`): calls
`container.LimitCPU` only when `LimitInShares` is present, then reads the
current limits back. -/
def handleLimitCpu (lookupResult : Except String Container)
    (r : LimitCpuRequest) :
    List ServerEvent × Except String LimitCpuResponse :=
  match lookupResult with
  | .error e => ([.lookup r.handle], .error e)
  | .ok c =>
    match r.limitInShares with
    | some v =>
      match c.limitCpuResult with
      | .error e =>
        ([.lookup r.handle, .pause c.handle, .limitCpu ⟨v⟩, .unpause c.handle],
         .error e)
      | .ok _ =>
        match c.currentCpuLimitsResult with
        | .error e =>
          ([.lookup r.handle, .pause c.handle, .limitCpu ⟨v⟩,
            .currentCpuLimits, .unpause c.handle], .error e)
        | .ok cur =>
          ([.lookup r.handle, .pause c.handle, .limitCpu ⟨v⟩,
            .currentCpuLimits, .unpause c.handle], .ok ⟨cur.limitInShares⟩)
    | none =>
      match c.currentCpuLimitsResult with
      | .error e =>
        ([.lookup r.handle, .pause c.handle, .currentCpuLimits,
          .unpause c.handle], .error e)
      | .ok cur =>
        ([.lookup r.handle, .pause c.handle, .currentCpuLimits,
          .unpause c.handle], .ok ⟨cur.limitInShares⟩)

/-- `handleLimitDisk` lines 255-261: `settingLimit` starts true iff any of
the six canonical fields is present, and each alias block sets it too. -/
def diskSettingLimit (r : LimitDiskRequest) : Bool :=
  r.blockSoft.isSome || r.blockHard.isSome ||
  r.inodeSoft.isSome || r.inodeHard.isSome ||
  r.byteSoft.isSome || r.byteHard.isSome ||
  r.block.isSome || r.blockLimit.isSome ||
  r.inode.isSome || r.inodeLimit.isSome ||
  r.byte.isSome || r.byteLimit.isSome

/-- `handleLimitDisk` lines 248-291: the six effective values passed to
`container.LimitDisk`.  Each hard limit starts from the canonical getter
(absent ⇒ `0`) and is then overwritten by `Block`/`Inode`/`Byte` if present,
and finally by `BlockLimit`/`InodeLimit`/`ByteLimit` if present — the
sequential override order of the source. -/
def effectiveDiskLimits (r : LimitDiskRequest) : DiskLimits :=
  let blockHard := r.blockHard.getD 0
  let blockHard := match r.block with | some v => v | none => blockHard
  let blockHard := match r.blockLimit with | some v => v | none => blockHard
  let inodeHard := r.inodeHard.getD 0
  let inodeHard := match r.inode with | some v => v | none => inodeHard
  let inodeHard := match r.inodeLimit with | some v => v | none => inodeHard
  let byteHard := r.byteHard.getD 0
  let byteHard := match r.byte with | some v => v | none => byteHard
  let byteHard := match r.byteLimit with | some v => v | none => byteHard
  { blockSoft := r.blockSoft.getD 0
    blockHard := blockHard
    inodeSoft := r.inodeSoft.getD 0
    inodeHard := inodeHard
    byteSoft := r.byteSoft.getD 0
    byteHard := byteHard }

/-- `handleLimitDisk` (`src/server/request_handling.go:246-328`): resolves
the legacy aliases, calls `container.LimitDisk` only when some limiting
field was present, then reads the current limits back. -/
def handleLimitDisk (lookupResult : Except String Container)
    (r : LimitDiskRequest) :
    List ServerEvent × Except String LimitDiskResponse :=
  match lookupResult with
  | .error e => ([.lookup r.handle], .error e)
  | .ok c =>
    if diskSettingLimit r then
      match c.limitDiskResult with
      | .error e =>
        ([.lookup r.handle, .pause c.handle, .limitDisk (effectiveDiskLimits r),
          .unpause c.handle], .error e)
      | .ok _ =>
        match c.currentDiskLimitsResult with
        | .error e =>
          ([.lookup r.handle, .pause c.handle, .limitDisk (effectiveDiskLimits r),
            .currentDiskLimits, .unpause c.handle], .error e)
        | .ok cur =>
          ([.lookup r.handle, .pause c.handle, .limitDisk (effectiveDiskLimits r),
            .currentDiskLimits, .unpause c.handle],
           .ok ⟨cur.blockSoft, cur.blockHard, cur.inodeSoft, cur.inodeHard,
                cur.byteSoft, cur.byteHard⟩)
    else
      match c.currentDiskLimitsResult with
      | .error e =>
        ([.lookup r.handle, .pause c.handle, .currentDiskLimits,
          .unpause c.handle], .error e)
      | .ok cur =>
        ([.lookup r.handle, .pause c.handle, .currentDiskLimits,
          .unpause c.handle],
         .ok ⟨cur.blockSoft, cur.blockHard, cur.inodeSoft, cur.inodeHard,
              cur.byteSoft, cur.byteHard⟩)

/-- `handleNetIn` (`src/server/request_handling.go:361-383`). -/
def handleNetIn (lookupResult : Except String Container) (r : NetInRequest) :
    List ServerEvent × Except String NetInResponse :=
  match lookupResult with
  | .error e => ([.lookup r.handle], .error e)
  | .ok c =>
    match c.netInResult with
    | .error e =>
      ([.lookup r.handle, .pause c.handle,
        .netIn (r.hostPort.getD 0) (r.containerPort.getD 0), .unpause c.handle],
       .error e)
    | .ok (hp, cp) =>
      ([.lookup r.handle, .pause c.handle,
        .netIn (r.hostPort.getD 0) (r.containerPort.getD 0), .unpause c.handle],
       .ok ⟨hp, cp⟩)

/-- `handleNetOut` (`src/server/request_handling.go:385-404`). -/
def handleNetOut (lookupResult : Except String Container) (r : NetOutRequest) :
    List ServerEvent × Except String NetOutResponse :=
  match lookupResult with
  | .error e => ([.lookup r.handle], .error e)
  | .ok c =>
    match c.netOutResult with
    | .error e =>
      ([.lookup r.handle, .pause c.handle,
        .netOut (r.network.getD "") (r.port.getD 0), .unpause c.handle], .error e)
    | .ok _ =>
      ([.lookup r.handle, .pause c.handle,
        .netOut (r.network.getD "") (r.port.getD 0), .unpause c.handle], .ok ⟨⟩)

/-- `protocol.Property`: one key/value pair of the wire property list. -/
structure WireProperty where
  key : String
  value : String
deriving DecidableEq

/-- `protocol.InfoResponse_MemoryStat`: every field is an optional `uint64`
on the wire; `handleInfo` sets all of them with `proto.Uint64`. -/
structure WireMemoryStat where
  cache : Option Nat
  rss : Option Nat
  mappedFile : Option Nat
  pgpgin : Option Nat
  pgpgout : Option Nat
  swap : Option Nat
  pgfault : Option Nat
  pgmajfault : Option Nat
  inactiveAnon : Option Nat
  activeAnon : Option Nat
  inactiveFile : Option Nat
  activeFile : Option Nat
  unevictable : Option Nat
  hierarchicalMemoryLimit : Option Nat
  hierarchicalMemswLimit : Option Nat
  totalCache : Option Nat
  totalRss : Option Nat
  totalMappedFile : Option Nat
  totalPgpgin : Option Nat
  totalPgpgout : Option Nat
  totalSwap : Option Nat
  totalPgfault : Option Nat
  totalPgmajfault : Option Nat
  totalInactiveAnon : Option Nat
  totalActiveAnon : Option Nat
  totalInactiveFile : Option Nat
  totalActiveFile : Option Nat
  totalUnevictable : Option Nat
deriving DecidableEq

/-- `protocol.InfoResponse_CpuStat`. -/
structure WireCpuStat where
  usage : Option Nat
  user : Option Nat
  system : Option Nat
deriving DecidableEq

/-- `protocol.InfoResponse_DiskStat`. -/
structure WireDiskStat where
  bytesUsed : Option Nat
  inodesUsed : Option Nat
deriving DecidableEq

/-- `protocol.InfoResponse_BandwidthStat`. -/
structure WireBandwidthStat where
  inRate : Option Nat
  inBurst : Option Nat
  outRate : Option Nat
  outBurst : Option Nat
deriving DecidableEq

/-- `protocol.InfoResponse_PortMapping`, read by the client's `Info`
decoder (`res.GetMappedPorts()`); `handleInfo` never populates it. -/
structure WirePortMapping where
  hostPort : Option Nat
  containerPort : Option Nat
deriving DecidableEq

/-- `protocol.InfoResponse`: the wire envelope of the Info operation.
Scalar fields are optional on the wire; `ProcessIds` is `[]uint64`.
`ExternalIp` and `MappedPorts` exist on the wire message (the client reads
them) but `handleInfo` leaves them unset. -/
structure InfoResponse where
  state : Option String
  events : List String
  hostIp : Option String
  containerIp : Option String
  externalIp : Option String
  containerPath : Option String
  processIds : List Nat
  properties : List WireProperty
  memoryStat : Option WireMemoryStat
  cpuStat : Option WireCpuStat
  diskStat : Option WireDiskStat
  bandwidthStat : Option WireBandwidthStat
  mappedPorts : List WirePortMapping
deriving DecidableEq

/-- The `InfoResponse` built by `handleInfo`
(`src/server/request_handling.go:534-592`) from the backend's
`ContainerInfo` and the container's property map (materialised here as the
iteration sequence `props`).  Process IDs are widened `uint32 → uint64`
(`uint64(processID)`, value-preserving, modelled as `% 2 ^ 64`); every stat
field is set; `ExternalIp` and `MappedPorts` are never set. -/
def encodeInfoResponse (info : ContainerInfo) (props : List (String × String)) :
    InfoResponse :=
  { state := some info.state
    events := info.events
    hostIp := some info.hostIP
    containerIp := some info.containerIP
    externalIp := none
    containerPath := some info.containerPath
    processIds := info.processIDs.map (· % 2 ^ 64)
    properties := props.map (fun p => ⟨p.1, p.2⟩)
    memoryStat := some
      { cache := some info.memoryStat.cache
        rss := some info.memoryStat.rss
        mappedFile := some info.memoryStat.mappedFile
        pgpgin := some info.memoryStat.pgpgin
        pgpgout := some info.memoryStat.pgpgout
        swap := some info.memoryStat.swap
        pgfault := some info.memoryStat.pgfault
        pgmajfault := some info.memoryStat.pgmajfault
        inactiveAnon := some info.memoryStat.inactiveAnon
        activeAnon := some info.memoryStat.activeAnon
        inactiveFile := some info.memoryStat.inactiveFile
        activeFile := some info.memoryStat.activeFile
        unevictable := some info.memoryStat.unevictable
        hierarchicalMemoryLimit := some info.memoryStat.hierarchicalMemoryLimit
        hierarchicalMemswLimit := some info.memoryStat.hierarchicalMemswLimit
        totalCache := some info.memoryStat.totalCache
        totalRss := some info.memoryStat.totalRss
        totalMappedFile := some info.memoryStat.totalMappedFile
        totalPgpgin := some info.memoryStat.totalPgpgin
        totalPgpgout := some info.memoryStat.totalPgpgout
        totalSwap := some info.memoryStat.totalSwap
        totalPgfault := some info.memoryStat.totalPgfault
        totalPgmajfault := some info.memoryStat.totalPgmajfault
        totalInactiveAnon := some info.memoryStat.totalInactiveAnon
        totalActiveAnon := some info.memoryStat.totalActiveAnon
        totalInactiveFile := some info.memoryStat.totalInactiveFile
        totalActiveFile := some info.memoryStat.totalActiveFile
        totalUnevictable := some info.memoryStat.totalUnevictable }
    cpuStat := some
      { usage := some info.cpuStat.usage
        user := some info.cpuStat.user
        system := some info.cpuStat.system }
    diskStat := some
      { bytesUsed := some info.diskStat.bytesUsed
        inodesUsed := some info.diskStat.inodesUsed }
    bandwidthStat := some
      { inRate := some info.bandwidthStat.inRate
        inBurst := some info.bandwidthStat.inBurst
        outRate := some info.bandwidthStat.outRate
        outBurst := some info.bandwidthStat.outBurst }
    mappedPorts := [] }

/-- `handleInfo` (`src/server/request_handling.go:506-593`). -/
def handleInfo (lookupResult : Except String Container) (r : InfoRequest) :
    List ServerEvent × Except String InfoResponse :=
  match lookupResult with
  | .error e => ([.lookup r.handle], .error e)
  | .ok c =>
    match c.infoResult with
    | .error e =>
      ([.lookup r.handle, .pause c.handle, .info, .unpause c.handle], .error e)
    | .ok info =>
      ([.lookup r.handle, .pause c.handle, .info, .unpause c.handle],
       .ok (encodeInfoResponse info c.properties))

/-- `streamProcessToConnection` (`src/server/request_handling.go:406-434`):
drains the backend's process-event channel, writing one data frame per
stdout/stderr/stdin event to the connection, in event order; on the first
event carrying an exit status it stops and returns the terminal exit-status
frame (which the dispatch loop then writes as the last message of the
stream); if the channel closes without an exit status it returns no terminal
frame.  Result: (data frames written, returned terminal frame). -/
def streamProcessToConnection (processID : Nat)
    (stream : List ProcessStreamPayload) : List Frame × Option Frame :=
  match stream with
  | [] => ([], none)
  | payload :: rest =>
    match payload.exitStatus with
    | some status => ([], some (.exit processID status))
    | none =>
      let out := streamProcessToConnection processID rest
      (.data processID payload.source payload.data :: out.1, out.2)

/-- `handleRun` (`src/server/request_handling.go:450-484`): after
`container.Run` succeeds it writes an initial frame carrying only the
assigned process ID, then streams the process events.  Result: (trace,
frames written to the connection, returned terminal frame or error). -/
def handleRun (lookupResult : Except String Container) (r : RunRequest) :
    List ServerEvent × List Frame × Except String (Option Frame) :=
  match lookupResult with
  | .error e => ([.lookup r.handle], [], .error e)
  | .ok c =>
    match c.runResult with
    | .error e =>
      ([.lookup r.handle, .pause c.handle,
        .run (r.script.getD "") (r.privileged.getD false), .unpause c.handle],
       [], .error e)
    | .ok (processID, stream) =>
      let out := streamProcessToConnection processID stream
      ([.lookup r.handle, .pause c.handle,
        .run (r.script.getD "") (r.privileged.getD false), .unpause c.handle],
       .procID processID :: out.1, .ok out.2)

/-- `handleAttach` (`src/server/request_handling.go:486-504`): after
`container.Attach` succeeds it streams the process events directly — unlike
`handleRun`, no initial process-ID frame is written. -/
def handleAttach (lookupResult : Except String Container) (r : AttachRequest) :
    List ServerEvent × List Frame × Except String (Option Frame) :=
  match lookupResult with
  | .error e => ([.lookup r.handle], [], .error e)
  | .ok c =>
    match c.attachResult with
    | .error e =>
      ([.lookup r.handle, .pause c.handle, .attach r.processID,
        .unpause c.handle], [], .error e)
    | .ok stream =>
      let out := streamProcessToConnection r.processID stream
      ([.lookup r.handle, .pause c.handle, .attach r.processID,
        .unpause c.handle], out.1, .ok out.2)

deriving instance DecidableEq for Except

/-- `transport.ProcessPayload` as decoded by the client
(`stream_handler.go:96`): optional error message, optional exit status,
optional stdio data. -/
structure TransportProcessPayload where
  processID : Nat
  source : Option StreamSource
  data : Option String
  error : Option String
  exitStatus : Option Nat
deriving DecidableEq

/-- One observable step of `streamHandler.wait`: decoding a frame, blocking
on the join barrier (`sh.wg.Wait()`), or returning to the caller. -/
inductive WaitEvent where
  | decodeFrame
  | waitBarrier
  | ret (result : Except String Nat)
deriving DecidableEq

/-- `streamHandler.wait` (`src/client/connection/stream_handler.go:94-116`),
as the sequence of steps it performs.  The decoder is modelled as the list
of decode outcomes it will yield: `none` is a decode failure (including
EOF, which is what an exhausted list produces).  On a decode failure the
loop calls `sh.wg.Wait()` and returns a decode error; on a frame carrying
an error it calls `sh.wg.Wait()` and returns a process error; on a frame
carrying an exit status it calls `sh.wg.Wait()` and returns the status;
any other frame is discarded and the loop continues. -/
def streamHandler.wait : List (Option TransportProcessPayload) → List WaitEvent
  | [] => [.waitBarrier, .ret (.error "connection: decode failed")]
  | none :: _ => [.waitBarrier, .ret (.error "connection: decode failed")]
  | some payload :: rest =>
    match payload.error with
    | some e =>
      [.decodeFrame, .waitBarrier,
       .ret (.error ("connection: process error: " ++ e))]
    | none =>
      match payload.exitStatus with
      | some status => [.decodeFrame, .waitBarrier, .ret (.ok status)]
      | none => .decodeFrame :: streamHandler.wait rest

/-- `streamHandler.attach` (`src/client/connection/stream_handler.go:69-77`):
hijacks the per-stream endpoint and, on success, registers one copy task in
the join barrier (`sh.wg.Add(1)`).  Modelled as the effect on the barrier's
registration count. -/
def streamHandler.attach (hijackResult : Except String Unit) (wgCount : Nat) :
    Except String Nat :=
  match hijackResult with
  | .error e => .error ("Failed to hijack stream: " ++ e)
  | .ok _ => .ok (wgCount + 1)

/-- `streamHandler.copyStream`
(`src/client/connection/stream_handler.go:89-92`): copies the hijacked
source to the sink, then releases its registration (`sh.wg.Done()`). -/
def streamHandler.copyStream (wgCount : Nat) : Nat := wgCount - 1

/-- The error a client call can surface: `structured` is `connection.Error
{StatusCode, Message}`; `badResponse` is the plain
`fmt.Errorf("bad response: %s", status)` produced when the error body
cannot be read; `containerNotFound` models the distinguished
`garden.ContainerNotFoundError` condition promised by `Connection.Destroy`'s
documentation. -/
inductive ClientError where
  | structured (statusCode : Nat) (message : String)
  | badResponse (status : String)
  | containerNotFound (handle : String)
deriving DecidableEq

/-- The parts of an HTTP response that `doStream` inspects: the numeric
status code, the status line (used in the `bad response` message), and the
outcome of reading the body in full (`ioutil.ReadAll`). -/
structure HTTPResponse where
  statusCode : Nat
  status : String
  body : Except String String
deriving DecidableEq

/-- `connection.doStream` (`src/client/connection/connection.go:779-815`),
response handling: outside the 200-299 success range it reads the full
error body and fails with `Error{StatusCode, body}` (or with the plain
`bad response` error if the body cannot be read); inside the range it
returns the body stream (modelled by the unconsumed read outcome). -/
def connection.doStream (resp : HTTPResponse) :
    Except ClientError (Except String String) :=
  if resp.statusCode < 200 || resp.statusCode > 299 then
    match resp.body with
    | .error _ => .error (.badResponse resp.status)
    | .ok errResponse => .error (.structured resp.statusCode errResponse)
  else
    .ok resp.body

/-- `connection.Destroy` (`src/client/connection/connection.go:156-166`):
delegates to `do`, which delegates response handling to `doStream` and then
decodes the success body (the decode is not error-mapped, so it is
irrelevant to which `ClientError` the call surfaces and is modelled as
succeeding). -/
def connection.Destroy (handle : String) (resp : HTTPResponse) :
    Except ClientError Unit :=
  match connection.doStream resp with
  | .error e => .error e
  | .ok _ => .ok ()

/-- The property map built by the client's `Info`
(`src/client/connection/connection.go:634-637`): a Go map populated by
iterating the wire property list, so a later entry overwrites an earlier
one with the same key. -/
def propsToMap (l : List WireProperty) : String → Option String :=
  l.foldl (fun m p => fun k => if k = p.key then some p.value else m k)
    (fun _ => none)

/-- `garden.ContainerInfo` as assembled by the client.  The nested stat
blocks have exactly the same fields as the server-side ones and reuse those
structures.  `MappedPorts` is a list of (host, container) port pairs. -/
structure ClientContainerInfo where
  state : String
  events : List String
  hostIP : String
  containerIP : String
  externalIP : String
  containerPath : String
  processIDs : List Nat
  properties : String → Option String
  memoryStat : ContainerMemoryStat
  cpuStat : ContainerCPUStat
  diskStat : ContainerDiskStat
  bandwidthStat : ContainerBandwidthStat
  mappedPorts : List (Nat × Nat)

/-- `connection.Info`'s decoder
(`src/client/connection/connection.go:621-717`): proto getters default
absent scalars to zero values, absent nested messages to all-zero stats
(modelled with `Option.bind`); process IDs are narrowed `uint64 → uint32`
(`uint32(pid)`, modelled as `% 2 ^ 32`); the property list is folded into a
map (last write wins). -/
def connection.Info (res : InfoResponse) : ClientContainerInfo :=
  { state := res.state.getD ""
    events := res.events
    hostIP := res.hostIp.getD ""
    containerIP := res.containerIp.getD ""
    externalIP := res.externalIp.getD ""
    containerPath := res.containerPath.getD ""
    processIDs := res.processIds.map (· % 2 ^ 32)
    properties := propsToMap res.properties
    memoryStat :=
      { cache := (res.memoryStat.bind (·.cache)).getD 0
        rss := (res.memoryStat.bind (·.rss)).getD 0
        mappedFile := (res.memoryStat.bind (·.mappedFile)).getD 0
        pgpgin := (res.memoryStat.bind (·.pgpgin)).getD 0
        pgpgout := (res.memoryStat.bind (·.pgpgout)).getD 0
        swap := (res.memoryStat.bind (·.swap)).getD 0
        pgfault := (res.memoryStat.bind (·.pgfault)).getD 0
        pgmajfault := (res.memoryStat.bind (·.pgmajfault)).getD 0
        inactiveAnon := (res.memoryStat.bind (·.inactiveAnon)).getD 0
        activeAnon := (res.memoryStat.bind (·.activeAnon)).getD 0
        inactiveFile := (res.memoryStat.bind (·.inactiveFile)).getD 0
        activeFile := (res.memoryStat.bind (·.activeFile)).getD 0
        unevictable := (res.memoryStat.bind (·.unevictable)).getD 0
        hierarchicalMemoryLimit :=
          (res.memoryStat.bind (·.hierarchicalMemoryLimit)).getD 0
        hierarchicalMemswLimit :=
          (res.memoryStat.bind (·.hierarchicalMemswLimit)).getD 0
        totalCache := (res.memoryStat.bind (·.totalCache)).getD 0
        totalRss := (res.memoryStat.bind (·.totalRss)).getD 0
        totalMappedFile := (res.memoryStat.bind (·.totalMappedFile)).getD 0
        totalPgpgin := (res.memoryStat.bind (·.totalPgpgin)).getD 0
        totalPgpgout := (res.memoryStat.bind (·.totalPgpgout)).getD 0
        totalSwap := (res.memoryStat.bind (·.totalSwap)).getD 0
        totalPgfault := (res.memoryStat.bind (·.totalPgfault)).getD 0
        totalPgmajfault := (res.memoryStat.bind (·.totalPgmajfault)).getD 0
        totalInactiveAnon := (res.memoryStat.bind (·.totalInactiveAnon)).getD 0
        totalActiveAnon := (res.memoryStat.bind (·.totalActiveAnon)).getD 0
        totalInactiveFile := (res.memoryStat.bind (·.totalInactiveFile)).getD 0
        totalActiveFile := (res.memoryStat.bind (·.totalActiveFile)).getD 0
        totalUnevictable := (res.memoryStat.bind (·.totalUnevictable)).getD 0 }
    cpuStat :=
      { usage := (res.cpuStat.bind (·.usage)).getD 0
        user := (res.cpuStat.bind (·.user)).getD 0
        system := (res.cpuStat.bind (·.system)).getD 0 }
    diskStat :=
      { bytesUsed := (res.diskStat.bind (·.bytesUsed)).getD 0
        inodesUsed := (res.diskStat.bind (·.inodesUsed)).getD 0 }
    bandwidthStat :=
      { inRate := (res.bandwidthStat.bind (·.inRate)).getD 0
        inBurst := (res.bandwidthStat.bind (·.inBurst)).getD 0
        outRate := (res.bandwidthStat.bind (·.outRate)).getD 0
        outBurst := (res.bandwidthStat.bind (·.outBurst)).getD 0 }
    mappedPorts :=
      res.mappedPorts.map (fun m => (m.hostPort.getD 0, m.containerPort.getD 0)) }

/-- The data frame a single backend event turns into. -/
def dataFrameFor (processID : Nat) (p : ProcessStreamPayload) : Frame :=
  .data processID p.source p.data

/-- Stated from the spec (§5, "frame order == event order"): one data frame
per event strictly before the first exit-status event, in event order.
Used to characterise `streamProcessToConnection`'s output. -/
def specDataFrames (processID : Nat) (events : List ProcessStreamPayload) :
    List Frame :=
  (events.takeWhile (fun p => p.exitStatus.isNone)).map (dataFrameFor processID)

/-- Stated from the spec: the exit status carried by the first terminal
event of the stream, if any. -/
def specFirstExit (events : List ProcessStreamPayload) : Option Nat :=
  (events.find? (fun p => p.exitStatus.isSome)).bind (·.exitStatus)

/-- Events that touch the eviction timer or the backend's container table,
as opposed to container-method calls. -/
def isTimerOrLookup : ServerEvent → Bool
  | .lookup _ => true
  | .pause _ => true
  | .unpause _ => true
  | _ => false

/-- The §5 trace discipline for a per-container handler: either the lookup
failed and nothing was paused, or the trace is exactly one lookup, one
pause, a run of container-method calls, and one final unpause — a single
balanced pause/unpause pair enclosing every backend container call, with
the timer back in the running state when the handler returns. -/
def pauseBracketed (t : List ServerEvent) : Prop :=
  (∃ rh, t = [.lookup rh]) ∨
  (∃ rh ch mid, t = .lookup rh :: .pause ch :: mid ++ [.unpause ch] ∧
    mid.all (fun e => !isTimerOrLookup e) = true)

/-- The limit-setting backend calls (as opposed to `Current*Limits` reads). -/
def isLimitSetCall : ServerEvent → Bool
  | .limitBandwidth _ => true
  | .limitMemory _ => true
  | .limitCpu _ => true
  | .limitDisk _ => true
  | _ => false

/-- Whether a client call surfaced the distinguished
`garden.ContainerNotFoundError` condition. -/
def isContainerNotFound : Except ClientError Unit → Bool
  | .error (.containerNotFound _) => true
  | _ => false

/-- A `LimitDiskRequest` with no limiting field present. -/
def emptyLimitDiskRequest (handle : String) : LimitDiskRequest :=
  ⟨handle, none, none, none, none, none, none, none, none, none, none, none,
   none⟩

/-- A concrete memory-stat block with pairwise distinct values. -/
def sampleMemoryStat : ContainerMemoryStat :=
  ⟨1, 2, 3, 4, 5, 6, 7, 8, 9, 10, 11, 12, 13, 14, 15, 16, 17, 18, 19, 20, 21,
   22, 23, 24, 25, 26, 27, 28⟩

/-- A concrete backend-produced `ContainerInfo`. -/
def sampleInfo : ContainerInfo :=
  { state := "active"
    events := ["oom"]
    hostIP := "10.0.0.1"
    containerIP := "10.0.0.2"
    containerPath := "/depot/c1"
    processIDs := [42, 4294967295]
    memoryStat := sampleMemoryStat
    cpuStat := ⟨100, 60, 40⟩
    diskStat := ⟨1024, 17⟩
    bandwidthStat := ⟨1, 2, 3, 4⟩ }

/-- A concrete container oracle on which every backend method succeeds. -/
def sampleContainer : Container :=
  { handle := "c1"
    stopResult := .ok ()
    copyInResult := .ok ()
    copyOutResult := .ok ()
    limitBandwidthResult := .ok ()
    currentBandwidthLimitsResult := .ok ⟨5, 7⟩
    limitMemoryResult := .ok ()
    currentMemoryLimitsResult := .ok ⟨1024⟩
    limitCpuResult := .ok ()
    currentCpuLimitsResult := .ok ⟨256⟩
    limitDiskResult := .ok ()
    currentDiskLimitsResult := .ok ⟨1, 2, 3, 4, 5, 6⟩
    netInResult := .ok (8080, 80)
    netOutResult := .ok ()
    infoResult := .ok sampleInfo
    properties := [("a", "1")]
    runResult := .ok (42, [⟨.stdout, "hi", none⟩, ⟨.stdout, "", some 0⟩])
    attachResult := .ok [⟨.stdout, "hi", none⟩, ⟨.stdout, "", some 0⟩] }

theorem streamProcess_spec (processID : Nat)
    (events : List ProcessStreamPayload) :
    streamProcessToConnection processID events =
      (specDataFrames processID events,
       (specFirstExit events).map (Frame.exit processID)) := by
  induction events with
  | nil => rfl
  | cons p rest ih =>
    cases hp : p.exitStatus with
    | some status =>
      simp [streamProcessToConnection, specDataFrames, specFirstExit,
        List.takeWhile_cons, List.find?_cons, hp, Option.isSome, Option.isNone]
    | none =>
      simp [streamProcessToConnection, specDataFrames, specFirstExit,
        List.takeWhile_cons, List.find?_cons, hp, Option.isSome, Option.isNone,
        ih, dataFrameFor]

/-- C6: for every process-event stream, the server's per-process streamer
writes one data frame per stdout/stderr/stdin event, in the order the
backend produced the events (exactly the events strictly before the first
exit-status event), and produces at most one terminal exit-status frame —
the one returned for the dispatcher to write last; once an event carrying an
exit status is seen the streamer stops, so no frame follows the terminal
frame. -/
theorem streamProcessToConnection_frame_order (processID : Nat)
    (events : List ProcessStreamPayload) :
    streamProcessToConnection processID events =
      (specDataFrames processID events,
       (specFirstExit events).map (Frame.exit processID)) :=
  streamProcess_spec processID events

/-- C1: every branch of `streamHandler.wait`'s frame-decode loop — decode
failure, error frame, exit-status frame — blocks on the join barrier
(`sh.wg.Wait()`) immediately before returning, so `wait` never surfaces an
exit status or error before the registered copy tasks have completed; and
each successfully attached output stream registers exactly one copy task in
that barrier (`sh.wg.Add(1)`). -/
theorem streamHandler_wait_blocks_on_barrier :
    (∀ frames, ∃ pre result,
       streamHandler.wait frames = pre ++ [.waitBarrier, .ret result] ∧
       pre.all (fun e => e == WaitEvent.decodeFrame) = true) ∧
    (∀ wgCount, streamHandler.attach (.ok ()) wgCount = .ok (wgCount + 1)) := by
  constructor
  · intro frames
    induction frames with
    | nil =>
      exact ⟨[], .error "connection: decode failed", rfl, rfl⟩
    | cons hd tl ih =>
      cases hd with
      | none =>
        exact ⟨[], .error "connection: decode failed", rfl, rfl⟩
      | some p =>
        cases hp : p.error with
        | some e =>
          exact ⟨[.decodeFrame],
            .error ("connection: process error: " ++ e),
            by simp [streamHandler.wait, hp], rfl⟩
        | none =>
          cases hq : p.exitStatus with
          | some status =>
            exact ⟨[.decodeFrame], .ok status,
              by simp [streamHandler.wait, hp, hq], rfl⟩
          | none =>
            obtain ⟨pre, result, heq, hpre⟩ := ih
            refine ⟨.decodeFrame :: pre, result,
              by simp [streamHandler.wait, hp, hq, heq], ?_⟩
            simpa using hpre
  · intro wgCount
    rfl

/-- C4 counterexample: for Attach the server writes *no* initial
process-ID frame.  On a concrete attach whose stream starts with a stdout
chunk, the first (and only) frame written to the connection is that data
frame, and no frame carrying just the process ID is ever written. -/
theorem handleAttach_writes_no_initial_frame :
    (handleAttach (.ok sampleContainer) ⟨"c1", 42⟩).2.1 =
      [Frame.data 42 .stdout "hi"] ∧
    (handleAttach (.ok sampleContainer) ⟨"c1", 42⟩).2.2 =
      .ok (some (Frame.exit 42 0)) := by
  exact ⟨rfl, rfl⟩

/-- C4 corrected: `handleRun` writes an initial frame carrying the
backend-assigned process ID before any data frame, then the data frames in
event order, and finishes by producing the stream's terminal exit-status
frame; `handleAttach`, by contrast, writes no initial process-ID frame — it
streams the data frames directly and finishes with the same terminal
frame. -/
theorem run_attach_frame_sequences :
    ∀ (c : Container) (r : RunRequest) (a : AttachRequest),
      ((handleRun (.ok c) r).2 =
        match c.runResult with
        | .error e => ([], .error e)
        | .ok (pid, events) =>
          (.procID pid :: specDataFrames pid events,
           .ok ((specFirstExit events).map (Frame.exit pid)))) ∧
      ((handleAttach (.ok c) a).2 =
        match c.attachResult with
        | .error e => ([], .error e)
        | .ok events =>
          (specDataFrames a.processID events,
           .ok ((specFirstExit events).map (Frame.exit a.processID)))) := by
  intro c r a
  constructor
  · cases hr : c.runResult with
    | error e => simp [handleRun, hr]
    | ok pr =>
      obtain ⟨pid, events⟩ := pr
      simp [handleRun, hr, streamProcess_spec]
  · cases ha : c.attachResult with
    | error e => simp [handleAttach, ha]
    | ok events => simp [handleAttach, ha, streamProcess_spec]

/-- C2 counterexample: a bandwidth-limit request with no limiting field
present still makes the handler invoke the container's `LimitBandwidth`
backend method (with both values defaulted to zero), so the bandwidth
operation is not a pure read. -/
theorem handleLimitBandwidth_sets_on_empty_request :
    (handleLimitBandwidth (.ok sampleContainer) ⟨"c1", none, none⟩).1.filter
      isLimitSetCall = [.limitBandwidth ⟨0, 0⟩] := by
  rfl

/-- C2 corrected: for the memory, CPU and disk limit operations a request
with no mutating field present performs no limit-setting backend call and
returns exactly the container's current limits; the bandwidth operation is
the exception — it always invokes `LimitBandwidth`, with the absent fields
defaulted to zero. -/
theorem limit_handlers_read_only_except_bandwidth :
    ∀ (c : Container) (h : String),
      ((handleLimitMemory (.ok c) ⟨h, none⟩).1.filter isLimitSetCall = [] ∧
       (handleLimitMemory (.ok c) ⟨h, none⟩).2 =
         c.currentMemoryLimitsResult.map (fun cur => ⟨cur.limitInBytes⟩)) ∧
      ((handleLimitCpu (.ok c) ⟨h, none⟩).1.filter isLimitSetCall = [] ∧
       (handleLimitCpu (.ok c) ⟨h, none⟩).2 =
         c.currentCpuLimitsResult.map (fun cur => ⟨cur.limitInShares⟩)) ∧
      ((handleLimitDisk (.ok c) (emptyLimitDiskRequest h)).1.filter
          isLimitSetCall = [] ∧
       (handleLimitDisk (.ok c) (emptyLimitDiskRequest h)).2 =
         c.currentDiskLimitsResult.map (fun cur =>
           ⟨cur.blockSoft, cur.blockHard, cur.inodeSoft, cur.inodeHard,
            cur.byteSoft, cur.byteHard⟩)) ∧
      (handleLimitBandwidth (.ok c) ⟨h, none, none⟩).1.filter isLimitSetCall =
        [.limitBandwidth ⟨0, 0⟩] := by
  intro c h
  refine ⟨⟨?_, ?_⟩, ⟨?_, ?_⟩, ⟨?_, ?_⟩, ?_⟩
  · rcases hm : c.currentMemoryLimitsResult with e | cur <;>
      simp [handleLimitMemory, hm, isLimitSetCall]
  · rcases hm : c.currentMemoryLimitsResult with e | cur <;>
      simp [handleLimitMemory, hm, Except.map]
  · rcases hc : c.currentCpuLimitsResult with e | cur <;>
      simp [handleLimitCpu, hc, isLimitSetCall]
  · rcases hc : c.currentCpuLimitsResult with e | cur <;>
      simp [handleLimitCpu, hc, Except.map]
  · rcases hd : c.currentDiskLimitsResult with e | cur <;>
      simp [handleLimitDisk, hd, isLimitSetCall, emptyLimitDiskRequest,
        diskSettingLimit]
  · rcases hd : c.currentDiskLimitsResult with e | cur <;>
      simp [handleLimitDisk, hd, Except.map, emptyLimitDiskRequest,
        diskSettingLimit]
  · rcases hb : c.limitBandwidthResult with e | u
    · simp [handleLimitBandwidth, hb, isLimitSetCall]
    · rcases hc : c.currentBandwidthLimitsResult with e | cur <;>
        simp [handleLimitBandwidth, hb, hc, isLimitSetCall]

/-- C3: the legacy disk-limit aliases are applied in the fixed order
canonical field, then `Block`/`Inode`/`Byte`, then
`BlockLimit`/`InodeLimit`/`ByteLimit`, so when several aliases of the same
hard limit are present the last-applied one present wins
(`BlockLimit` over `Block` over `BlockHard`, and likewise for inodes and
bytes); whenever any limiting field is present, the limits passed to the
backend's `LimitDisk` are exactly these effective values. -/
theorem handleLimitDisk_alias_precedence :
    ∀ (c : Container) (r : LimitDiskRequest),
      ((handleLimitDisk (.ok c) r).1.filter isLimitSetCall =
        if diskSettingLimit r then [.limitDisk (effectiveDiskLimits r)]
        else []) ∧
      (effectiveDiskLimits r).blockHard =
        (match r.blockLimit, r.block with
         | some v, _ => v
         | none, some v => v
         | none, none => r.blockHard.getD 0) ∧
      (effectiveDiskLimits r).inodeHard =
        (match r.inodeLimit, r.inode with
         | some v, _ => v
         | none, some v => v
         | none, none => r.inodeHard.getD 0) ∧
      (effectiveDiskLimits r).byteHard =
        (match r.byteLimit, r.byte with
         | some v, _ => v
         | none, some v => v
         | none, none => r.byteHard.getD 0) := by
  intro c r
  refine ⟨?_, ?_, ?_, ?_⟩
  · by_cases hset : diskSettingLimit r
    · rcases hl : c.limitDiskResult with e | u
      · simp [handleLimitDisk, hset, hl, isLimitSetCall]
      · rcases hc : c.currentDiskLimitsResult with e | cur <;>
          simp [handleLimitDisk, hset, hl, hc, isLimitSetCall]
    · rcases hc : c.currentDiskLimitsResult with e | cur <;>
        simp [handleLimitDisk, hset, hc, isLimitSetCall]
  · rcases hbl : r.blockLimit with _ | v <;> rcases hb : r.block with _ | w <;>
      simp [effectiveDiskLimits, hbl, hb]
  · rcases hil : r.inodeLimit with _ | v <;> rcases hi : r.inode with _ | w <;>
      simp [effectiveDiskLimits, hil, hi]
  · rcases hyl : r.byteLimit with _ | v <;> rcases hy : r.byte with _ | w <;>
      simp [effectiveDiskLimits, hyl, hy]

/-- C10: when Stop is requested with the background flag set, the handler
fires the backend `Stop` on a separate task and immediately returns a
success `StopResponse`, whatever the backend's `Stop` would return — the
error is discarded and never reported; only in synchronous mode is the
backend's error propagated in the response. -/
theorem handleStop_background_discards_error :
    ∀ (c : Container) (h : String) (k : Option Bool),
      ((handleStop (.ok c) ⟨h, k, some true⟩).2 = .ok ⟨⟩ ∧
       (handleStop (.ok c) ⟨h, k, some true⟩).1 =
         [.lookup h, .pause c.handle, .spawnStop (k.getD false),
          .unpause c.handle]) ∧
      (handleStop (.ok c) ⟨h, k, some false⟩).2 =
        c.stopResult.map (fun _ => ⟨⟩) ∧
      (handleStop (.ok c) ⟨h, k, none⟩).2 =
        c.stopResult.map (fun _ => ⟨⟩) := by
  intro c h k
  refine ⟨⟨rfl, rfl⟩, ?_, ?_⟩
  · rcases hs : c.stopResult with e | u <;>
      simp [handleStop, hs, Except.map]
  · rcases hs : c.stopResult with e | u <;>
      simp [handleStop, hs, Except.map]

/-- C7: for every client call (unary calls delegate to `doStream`), an HTTP
status outside 200-299 fails the call with the structured
`Error{StatusCode, Message}` whose status code is the HTTP status and whose
message is the full error body read from the response; a status inside
200-299 produces no such error — the body stream is returned. -/
theorem doStream_status_error_mapping :
    ∀ (code : Nat) (status body : String),
      connection.doStream ⟨code, status, .ok body⟩ =
        if code < 200 || code > 299 then
          .error (.structured code body)
        else
          .ok (.ok body) := by
  intro code status body
  simp only [connection.doStream]

/-- C8: the client never surfaces the distinguished
`garden.ContainerNotFoundError` condition promised by `Connection.Destroy`'s
own documentation — every non-2xx response, including the not-found case,
is returned as the generic structured `Error{StatusCode, Message}`.
Evaluated at the failing input (destroying an unknown handle, server
answering 404): the caller gets the generic structured error and cannot
distinguish not-found from any other failure by error type. -/
theorem destroy_never_yields_container_not_found :
    connection.Destroy "unknown"
        ⟨404, "404 Not Found", .ok "unknown handle: unknown"⟩ =
      .error (.structured 404 "unknown handle: unknown") ∧
    ∀ (h : String) (resp : HTTPResponse),
      isContainerNotFound (connection.Destroy h resp) = false := by
  constructor
  · rfl
  · intro h resp
    obtain ⟨code, status, body⟩ := resp
    by_cases hcond : (decide (code < 200) || decide (code > 299)) = true
    · cases body <;>
        simp [connection.Destroy, connection.doStream, hcond,
          isContainerNotFound]
    · simp [connection.Destroy, connection.doStream, hcond,
        isContainerNotFound]

theorem bracket_shape (rh ch : String) (mid : List ServerEvent)
    (hmid : mid.all (fun e => !isTimerOrLookup e) = true) :
    pauseBracketed (.lookup rh :: .pause ch :: mid ++ [.unpause ch]) :=
  Or.inr ⟨rh, ch, mid, rfl, hmid⟩

theorem handleStop_bracketed (lr : Except String Container) (r : StopRequest) :
    pauseBracketed (handleStop lr r).1 := by
  cases lr with
  | error e => exact Or.inl ⟨r.handle, rfl⟩
  | ok c =>
    by_cases hb : (r.background.getD false) = true
    · simp only [handleStop, hb, if_true]
      exact bracket_shape _ _ [.spawnStop (r.kill.getD false)] rfl
    · rcases hs : c.stopResult with e | u <;>
        simp only [handleStop, hb, hs, Bool.false_eq_true, if_false] <;>
        exact bracket_shape _ _ [.stop (r.kill.getD false)] rfl

theorem handleCopyIn_bracketed (lr : Except String Container)
    (r : CopyInRequest) : pauseBracketed (handleCopyIn lr r).1 := by
  cases lr with
  | error e => exact Or.inl ⟨r.handle, rfl⟩
  | ok c =>
    rcases hs : c.copyInResult with e | u <;>
      simp only [handleCopyIn, hs] <;>
      exact bracket_shape _ _ [.copyIn r.srcPath r.dstPath] rfl

theorem handleCopyOut_bracketed (lr : Except String Container)
    (r : CopyOutRequest) : pauseBracketed (handleCopyOut lr r).1 := by
  cases lr with
  | error e => exact Or.inl ⟨r.handle, rfl⟩
  | ok c =>
    rcases hs : c.copyOutResult with e | u <;>
      simp only [handleCopyOut, hs] <;>
      exact bracket_shape _ _ [.copyOut r.srcPath r.dstPath r.owner] rfl

theorem handleLimitBandwidth_bracketed (lr : Except String Container)
    (r : LimitBandwidthRequest) :
    pauseBracketed (handleLimitBandwidth lr r).1 := by
  cases lr with
  | error e => exact Or.inl ⟨r.handle, rfl⟩
  | ok c =>
    rcases hl : c.limitBandwidthResult with e | u
    · simp only [handleLimitBandwidth, hl]
      exact bracket_shape _ _ [.limitBandwidth ⟨r.rate.getD 0, r.burst.getD 0⟩]
        rfl
    · rcases hc : c.currentBandwidthLimitsResult with e | cur <;>
        simp only [handleLimitBandwidth, hl, hc] <;>
        exact bracket_shape _ _
          [.limitBandwidth ⟨r.rate.getD 0, r.burst.getD 0⟩,
           .currentBandwidthLimits] rfl

theorem handleLimitMemory_bracketed (lr : Except String Container)
    (r : LimitMemoryRequest) : pauseBracketed (handleLimitMemory lr r).1 := by
  cases lr with
  | error e => exact Or.inl ⟨r.handle, rfl⟩
  | ok c =>
    rcases hv : r.limitInBytes with _ | v
    · rcases hc : c.currentMemoryLimitsResult with e | cur <;>
        simp only [handleLimitMemory, hv, hc] <;>
        exact bracket_shape _ _ [.currentMemoryLimits] rfl
    · rcases hl : c.limitMemoryResult with e | u
      · simp only [handleLimitMemory, hv, hl]
        exact bracket_shape _ _ [.limitMemory ⟨v⟩] rfl
      · rcases hc : c.currentMemoryLimitsResult with e | cur <;>
          simp only [handleLimitMemory, hv, hl, hc] <;>
          exact bracket_shape _ _ [.limitMemory ⟨v⟩, .currentMemoryLimits] rfl

theorem handleLimitCpu_bracketed (lr : Except String Container)
    (r : LimitCpuRequest) : pauseBracketed (handleLimitCpu lr r).1 := by
  cases lr with
  | error e => exact Or.inl ⟨r.handle, rfl⟩
  | ok c =>
    rcases hv : r.limitInShares with _ | v
    · rcases hc : c.currentCpuLimitsResult with e | cur <;>
        simp only [handleLimitCpu, hv, hc] <;>
        exact bracket_shape _ _ [.currentCpuLimits] rfl
    · rcases hl : c.limitCpuResult with e | u
      · simp only [handleLimitCpu, hv, hl]
        exact bracket_shape _ _ [.limitCpu ⟨v⟩] rfl
      · rcases hc : c.currentCpuLimitsResult with e | cur <;>
          simp only [handleLimitCpu, hv, hl, hc] <;>
          exact bracket_shape _ _ [.limitCpu ⟨v⟩, .currentCpuLimits] rfl

theorem handleLimitDisk_bracketed (lr : Except String Container)
    (r : LimitDiskRequest) : pauseBracketed (handleLimitDisk lr r).1 := by
  cases lr with
  | error e => exact Or.inl ⟨r.handle, rfl⟩
  | ok c =>
    by_cases hset : diskSettingLimit r = true
    · rcases hl : c.limitDiskResult with e | u
      · simp only [handleLimitDisk, hset, hl, if_true]
        exact bracket_shape _ _ [.limitDisk (effectiveDiskLimits r)] rfl
      · rcases hc : c.currentDiskLimitsResult with e | cur <;>
          simp only [handleLimitDisk, hset, hl, hc, if_true] <;>
          exact bracket_shape _ _
            [.limitDisk (effectiveDiskLimits r), .currentDiskLimits] rfl
    · rcases hc : c.currentDiskLimitsResult with e | cur <;>
        simp only [handleLimitDisk, hset, hc, Bool.false_eq_true, if_false] <;>
        exact bracket_shape _ _ [.currentDiskLimits] rfl

theorem handleNetIn_bracketed (lr : Except String Container)
    (r : NetInRequest) : pauseBracketed (handleNetIn lr r).1 := by
  cases lr with
  | error e => exact Or.inl ⟨r.handle, rfl⟩
  | ok c =>
    rcases hn : c.netInResult with e | ⟨hp, cp⟩ <;>
      simp only [handleNetIn, hn] <;>
      exact bracket_shape _ _
        [.netIn (r.hostPort.getD 0) (r.containerPort.getD 0)] rfl

theorem handleNetOut_bracketed (lr : Except String Container)
    (r : NetOutRequest) : pauseBracketed (handleNetOut lr r).1 := by
  cases lr with
  | error e => exact Or.inl ⟨r.handle, rfl⟩
  | ok c =>
    rcases hn : c.netOutResult with e | u <;>
      simp only [handleNetOut, hn] <;>
      exact bracket_shape _ _ [.netOut (r.network.getD "") (r.port.getD 0)] rfl

theorem handleInfo_bracketed (lr : Except String Container) (r : InfoRequest) :
    pauseBracketed (handleInfo lr r).1 := by
  cases lr with
  | error e => exact Or.inl ⟨r.handle, rfl⟩
  | ok c =>
    rcases hi : c.infoResult with e | info <;>
      simp only [handleInfo, hi] <;>
      exact bracket_shape _ _ [.info] rfl

theorem handleRun_bracketed (lr : Except String Container) (r : RunRequest) :
    pauseBracketed (handleRun lr r).1 := by
  cases lr with
  | error e => exact Or.inl ⟨r.handle, rfl⟩
  | ok c =>
    rcases hr : c.runResult with e | ⟨pid, events⟩ <;>
      simp only [handleRun, hr] <;>
      exact bracket_shape _ _
        [.run (r.script.getD "") (r.privileged.getD false)] rfl

theorem handleAttach_bracketed (lr : Except String Container)
    (r : AttachRequest) : pauseBracketed (handleAttach lr r).1 := by
  cases lr with
  | error e => exact Or.inl ⟨r.handle, rfl⟩
  | ok c =>
    rcases ha : c.attachResult with e | events <;>
      simp only [handleAttach, ha] <;>
      exact bracket_shape _ _ [.attach r.processID] rfl

/-- C9: every per-container handler — Stop, CopyIn, CopyOut, the four
Limit operations, NetIn, NetOut, Info, Run and Attach — follows the §5
trace discipline on every execution path: when the lookup fails no timer
operation is performed at all, and when it succeeds the trace is exactly
one lookup, one pause of the container's handle, the backend container
calls, and one final unpause of the same handle — a single balanced
pause/unpause pair, the pause preceding every backend container call and
the unpause performed on every exit path (the deferred-release pattern), so
the timer is back in the running state when the handler returns. -/
theorem handlers_pause_unpause_balanced :
    (∀ lr r, pauseBracketed (handleStop lr r).1) ∧
    (∀ lr r, pauseBracketed (handleCopyIn lr r).1) ∧
    (∀ lr r, pauseBracketed (handleCopyOut lr r).1) ∧
    (∀ lr r, pauseBracketed (handleLimitBandwidth lr r).1) ∧
    (∀ lr r, pauseBracketed (handleLimitMemory lr r).1) ∧
    (∀ lr r, pauseBracketed (handleLimitCpu lr r).1) ∧
    (∀ lr r, pauseBracketed (handleLimitDisk lr r).1) ∧
    (∀ lr r, pauseBracketed (handleNetIn lr r).1) ∧
    (∀ lr r, pauseBracketed (handleNetOut lr r).1) ∧
    (∀ lr r, pauseBracketed (handleInfo lr r).1) ∧
    (∀ lr r, pauseBracketed (handleRun lr r).1) ∧
    (∀ lr r, pauseBracketed (handleAttach lr r).1) :=
  ⟨handleStop_bracketed, handleCopyIn_bracketed, handleCopyOut_bracketed,
   handleLimitBandwidth_bracketed, handleLimitMemory_bracketed,
   handleLimitCpu_bracketed, handleLimitDisk_bracketed, handleNetIn_bracketed,
   handleNetOut_bracketed, handleInfo_bracketed, handleRun_bracketed,
   handleAttach_bracketed⟩

theorem propsToMap_foldl (l : List WireProperty) (m : String → Option String)
    (k : String) :
    l.foldl (fun m p => fun q => if q = p.key then some p.value else m q) m k =
      (match l.reverse.find? (fun p => p.key == k) with
       | some p => some p.value
       | none => m k) := by
  induction l generalizing m with
  | nil => rfl
  | cons p t ih =>
    simp only [List.foldl_cons, List.reverse_cons, List.find?_append, ih]
    cases ht : t.reverse.find? (fun q => q.key == k) with
    | some q => simp
    | none =>
      by_cases hk : (p.key == k) = true
      · have hkey : k = p.key := (beq_iff_eq.mp hk).symm
        simp [List.find?, hk, hkey]
      · have hkey : ¬ k = p.key := fun h => hk (beq_iff_eq.mpr h.symm)
        simp [List.find?, hk, hkey]

theorem find?_reverse_of_nodup (l : List WireProperty) (k : String)
    (h : (l.map (fun p => p.key)).Nodup) :
    l.reverse.find? (fun p => p.key == k) = l.find? (fun p => p.key == k) := by
  induction l with
  | nil => rfl
  | cons p t ih =>
    simp only [List.map_cons, List.nodup_cons] at h
    obtain ⟨hp, ht⟩ := h
    by_cases hk : (p.key == k) = true
    · have hkey : p.key = k := beq_iff_eq.mp hk
      have hnone : t.reverse.find? (fun q => q.key == k) = none := by
        apply List.find?_eq_none.mpr
        intro q hq hbq
        apply hp
        have hqk : q.key = k := beq_iff_eq.mp hbq
        rw [hkey, ← hqk]
        exact List.mem_map_of_mem (fun r => r.key) (List.mem_reverse.mp hq)
      simp [List.reverse_cons, List.find?_append, hnone, List.find?, hk]
    · simp only [List.reverse_cons, List.find?_append, List.find?, hk,
        ih ht, Option.or_none]

theorem decoded_properties_lookup (props : List (String × String))
    (hkeys : (props.map Prod.fst).Nodup) (k : String) :
    propsToMap (props.map (fun p => ⟨p.1, p.2⟩)) k =
      (props.find? (fun p => p.1 == k)).map Prod.snd := by
  have hkeys' :
      ((props.map (fun p => (⟨p.1, p.2⟩ : WireProperty))).map
        (fun p => p.key)).Nodup := by
    rw [List.map_map]
    exact hkeys
  rw [propsToMap, propsToMap_foldl,
    find?_reverse_of_nodup _ _ hkeys', List.find?_map]
  have hcomp : ((fun p => p.key == k) ∘ fun p => (⟨p.1, p.2⟩ : WireProperty)) =
      fun p : String × String => p.1 == k := rfl
  rw [hcomp]
  cases hf : props.find? (fun p => p.1 == k) with
  | none => rfl
  | some q => rfl

/-- C5: encoding a backend-produced `ContainerInfo` (together with the
container's property map) into the Info response and decoding that response
on the client preserves every field of the original: state, events, host
and container IPs, container path, the process-ID list (widened to wire
width and narrowed back), the property map, and the nested
memory/CPU/disk/bandwidth stat blocks.  The wire-only fields the server
never populates decode to empty defaults (`ExternalIp` to `""`,
`MappedPorts` to `[]`). -/
theorem info_roundtrip (info : ContainerInfo) (props : List (String × String))
    (hkeys : (props.map Prod.fst).Nodup)
    (hpids : ∀ pid ∈ info.processIDs, pid < 2 ^ 32) :
    (connection.Info (encodeInfoResponse info props)).state = info.state ∧
    (connection.Info (encodeInfoResponse info props)).events = info.events ∧
    (connection.Info (encodeInfoResponse info props)).hostIP = info.hostIP ∧
    (connection.Info (encodeInfoResponse info props)).containerIP =
      info.containerIP ∧
    (connection.Info (encodeInfoResponse info props)).containerPath =
      info.containerPath ∧
    (connection.Info (encodeInfoResponse info props)).processIDs =
      info.processIDs ∧
    (∀ k, (connection.Info (encodeInfoResponse info props)).properties k =
      (props.find? (fun p => p.1 == k)).map Prod.snd) ∧
    (connection.Info (encodeInfoResponse info props)).memoryStat =
      info.memoryStat ∧
    (connection.Info (encodeInfoResponse info props)).cpuStat = info.cpuStat ∧
    (connection.Info (encodeInfoResponse info props)).diskStat =
      info.diskStat ∧
    (connection.Info (encodeInfoResponse info props)).bandwidthStat =
      info.bandwidthStat ∧
    (connection.Info (encodeInfoResponse info props)).externalIP = "" ∧
    (connection.Info (encodeInfoResponse info props)).mappedPorts = [] := by
  refine ⟨rfl, rfl, rfl, rfl, rfl, ?_, ?_, rfl, rfl, rfl, rfl, rfl, rfl⟩
  · show (info.processIDs.map (· % 2 ^ 64)).map (· % 2 ^ 32) = info.processIDs
    rw [List.map_map]
    have hcongr : info.processIDs.map (fun pid => pid % 2 ^ 64 % 2 ^ 32) =
        info.processIDs.map id := by
      apply List.map_congr_left
      intro pid hpid
      have h32 : pid < 2 ^ 32 := hpids pid hpid
      have h64 : pid < 2 ^ 64 := lt_trans h32 (by norm_num)
      show pid % 2 ^ 64 % 2 ^ 32 = id pid
      rw [Nat.mod_eq_of_lt h64, Nat.mod_eq_of_lt h32]
      rfl
    rw [Function.comp_def, hcongr, List.map_id]
  · intro k
    exact decoded_properties_lookup props hkeys k

/-- Witness for the round-trip theorem at a concrete info/property pair. -/
theorem info_roundtrip_witness :
    (connection.Info (encodeInfoResponse sampleInfo [("a", "1")])).processIDs =
      sampleInfo.processIDs ∧
    (connection.Info (encodeInfoResponse sampleInfo [("a", "1")])).properties
      "a" = some "1" := by
  have h := info_roundtrip sampleInfo [("a", "1")] (by decide) (by decide)
  refine ⟨h.2.2.2.2.2.1, ?_⟩
  rw [h.2.2.2.2.2.2.1 "a"]
  rfl

end Garden
